import Mathlib

/-!
Shallow embedding of `pyesm.core.time_control` (files `esm_calendar.py` and
`__init__.py`): the `Calendar`, `Dateformat` and `Date` classes with their
string parser (`Date.__init__`), formatter (`Date.format`), arithmetic
(`Date.add`, `Date.sub`, `Date.__sub__`, `Date.makesense`), and the
`EsmCalendar` / `CouplingEsmCalendar` state machines.

Conventions:
* Python exceptions (`ValueError`, `TypeError`, `IndexError`, `sys.exit`) are
  modelled by `Option`/`Except` failure.
* Python `int(x + y / n)` (true division followed by `int()` truncation toward
  zero, applied by `Date.__setitem__`) is modelled exactly on rationals as
  `Int.tdiv (x * n + y) n`; at the integer magnitudes exercised by the
  simulation code the float result is exact, so this is faithful.
* Python `%` on a positive divisor is `Int.emod`.
* The unbounded `while` loops of `Date.makesense` and `Date.__sub__` are run
  on explicit fuel; exhausting the fuel is a failure (`none`).
-/

namespace PyEsm

/-- `Calendar(calendar_type)`: 0 = no leap years, 1 = proleptic Gregorian,
`n` = equal months of `n` days. -/
structure Calendar where
  calendar_type : Int
  deriving DecidableEq

/-- `Calendar.isleapyear`. -/
def Calendar.isleapyear (c : Calendar) (year : Int) : Bool :=
  if c.calendar_type = 1 then
    if year % 4 = 0 then
      if year % 100 = 0 then
        if year % 400 = 0 then true else false
      else true
    else false
  else false

/-- `Calendar.day_in_year`. -/
def Calendar.day_in_year (c : Calendar) (year : Int) : Int :=
  if c.calendar_type = 0 then 365
  else if c.calendar_type = 1 then 365 + (if c.isleapyear year then 1 else 0)
  else c.calendar_type * 12

/-- The integer core of `Calendar.day_in_month` (the code path reached once a
string month has been converted to an integer, or with an integer month). -/
def Calendar.day_in_month_int (c : Calendar) (year month : Int) : Int :=
  if c.calendar_type = 0 ∨ c.calendar_type = 1 then
    if month ∈ ([1, 3, 5, 7, 8, 10, 12] : List Int) then 31
    else if month ∈ ([4, 6, 9, 11] : List Int) then 30
    else 28 + (if c.isleapyear year then 1 else 0)
  else c.calendar_type

/-- `Calendar.monthnames`. -/
def monthnames : List String :=
  ["Jan", "Feb", "Mar", "Apr", "May", "Jun", "Jul", "Aug", "Sep", "Oct", "Nov", "Dec"]

/-- Python `str.capitalize()`: first character upper-cased, the rest lower-cased. -/
def pyCapitalize (s : String) : String :=
  match s.data with
  | [] => ""
  | c :: cs => String.mk (c.toUpper :: cs.map Char.toLower)

/-- The `month` argument of `Calendar.day_in_month` is either an `int` or a `str`. -/
inductive MonthArg where
  | int (i : Int)
  | str (s : String)
  deriving DecidableEq

/-- `Calendar.day_in_month(year, month)`: a string month is capitalized and
looked up in `monthnames` (`ValueError` if absent); then the integer path. -/
def Calendar.day_in_month (c : Calendar) (year : Int) (month : MonthArg) :
    Except String Int :=
  match month with
  | .str s =>
      match monthnames.findIdx? (· = pyCapitalize s) with
      | none => .error "ValueError: month name not in monthnames"
      | some i => .ok (c.day_in_month_int year ((i : Int) + 1))
  | .int m => .ok (c.day_in_month_int year m)

/-! ### Python string primitives -/

/-- The character for a decimal digit value. -/
def digitChar (n : Nat) : Char := Char.ofNat (48 + n)

/-- Decimal digits of a natural number, most significant first (fuel-bounded;
40 digits is far beyond anything the simulation code produces). -/
def natDigitsAux : Nat → Nat → List Char
  | 0, _ => []
  | fuel + 1, n =>
    if n < 10 then [digitChar n]
    else natDigitsAux fuel (n / 10) ++ [digitChar (n % 10)]

/-- Python `str` of a nonnegative integer. -/
def natStr (n : Nat) : String := String.mk (natDigitsAux 40 n)

/-- Python `str(i)` for an `int`. -/
def pyStrInt (i : Int) : String :=
  if i < 0 then "-" ++ natStr i.natAbs else natStr i.natAbs

/-- Python `str.zfill` for the unsigned digit strings the code applies it to. -/
def zfill (w : Nat) (s : String) : String :=
  String.mk (List.replicate (w - s.length) '0') ++ s

/-- Numeric value of a nonempty all-digit character list. -/
def digitsVal : List Char → Option Nat
  | [] => none
  | l =>
    if l.all Char.isDigit then
      some (l.foldl (fun a c => a * 10 + (c.toNat - 48)) 0)
    else none

/-- Python `int(s)` on a string: surrounding whitespace is stripped, an
optional sign is allowed, the rest must be (nonempty) digits. -/
def pyInt (l : List Char) : Option Int :=
  let t := ((l.dropWhile Char.isWhitespace).reverse.dropWhile Char.isWhitespace).reverse
  match t with
  | '-' :: rest => (digitsVal rest).map (fun n => -(n : Int))
  | '+' :: rest => (digitsVal rest).map (fun n => (n : Int))
  | _ => (digitsVal t).map (fun n => (n : Int))

/-- Python `s[-2:]`. -/
def lastTwo (l : List Char) : List Char := l.drop (l.length - 2)

/-- Python `s[:-2]`. -/
def dropLastTwo (l : List Char) : List Char := l.take (l.length - 2)

/-- Python `s.split(c)`, keeping empty parts. -/
def splitAll (c : Char) : List Char → List (List Char)
  | [] => [[]]
  | x :: xs =>
    if x = c then [] :: splitAll c xs
    else
      match splitAll c xs with
      | [] => [[x]]
      | h :: t => (x :: h) :: t

/-! ### `Dateformat` and `Date` -/

/-- The class attributes `Dateformat.datesep`. -/
def datesepTable : List String := ["", "-", "-", "-", " ", " ", "", "-", "", "", "/"]

/-- The class attributes `Dateformat.timesep`. -/
def timesepTable : List String := ["", ":", ":", ":", " ", ":", ":", "", "", "", ":"]

/-- The class attributes `Dateformat.dtsep`. -/
def dtsepTable : List String := ["_", "_", "T", " ", " ", " ", "_", "_", "", "_", " "]

/-- `Dateformat(form, printhours, printminutes, printseconds)`. -/
structure Dateformat where
  form : Nat
  printhours : Bool
  printminutes : Bool
  printseconds : Bool
  deriving DecidableEq

/-- The `Date` object: six integer fields, the remembered format descriptor,
and the bound calendar (`_calendar`). -/
structure Date where
  year : Int
  month : Int
  day : Int
  hour : Int
  minute : Int
  second : Int
  dateFormat : Dateformat
  calendar : Calendar
  deriving DecidableEq

/-- The tuple `Date.__eq__` (and the comparison operators) look at. -/
def sixFields (d : Date) : Int × Int × Int × Int × Int × Int :=
  (d.year, d.month, d.day, d.hour, d.minute, d.second)

/-- The default calendar (`Calendar()`, proleptic Gregorian). -/
def defaultCal : Calendar := ⟨1⟩

/-! ### `Date.__init__`: the string parser -/

/-- One fixed-width clock field of the no-colon time branch: 3 characters when
the field starts with `-`, else 2; fails on an empty string (Python `time[0]`
raises `IndexError`). -/
def takeClock (time : List Char) : Option (List Char × List Char) :=
  match time with
  | [] => none
  | c :: _ =>
    if c = '-' then some (time.take 3, time.drop 3)
    else some (time.take 2, time.drop 2)

/-- The time-part parser of `Date.__init__` (the `if time != ""` block).
Returns the hour/minute/second digit strings, the three print flags, and the
time separator. -/
def parseTime (time : List Char) :
    Option (List Char × List Char × List Char × Bool × Bool × Bool × String) :=
  if ':' ∈ time then
    let cnt := time.count ':'
    if cnt = 0 then none -- unreachable: Python would bind `hours` to a list
    else if cnt = 1 then
      match splitAll ':' time with
      | [h, m] => some (h, m, ['0', '0'], true, true, false, ":")
      | _ => none
    else if cnt = 2 then
      match splitAll ':' time with
      | [h, m, s] => some (h, m, s, true, true, true, ":")
      | _ => none
    else
      -- three or more separators: no branch of the Python chain fires, the
      -- "00" defaults and the all-false print flags survive
      some (['0', '0'], ['0', '0'], ['0', '0'], false, false, false, ":")
  else
    match takeClock time with
    | none => none
    | some (h, rest1) =>
      match takeClock rest1 with
      | none => none
      | some (m, rest2) =>
        match takeClock rest2 with
        | none => none
        | some (s, _) => some (h, m, s, true, true, true, "")

/-- One pass of the date-part loop (`for index in 2, 1`): take the last two
characters as the field, then strip an optional `-` separator; a doubled `-`
marks a negative field. Fails where Python would index an empty string. -/
def dateIter (date : List Char) (sep : String) :
    Option (List Char × List Char × String) :=
  let field := lastTwo date
  let date1 := dropLastTwo date
  match date1.getLast? with
  | none => none
  | some c =>
    if c = '-' then
      let date2 := date1.dropLast
      match date2.getLast? with
      | none => none
      | some c2 =>
        if c2 = '-' then some ('-' :: field, date2.dropLast, "-")
        else some (field, date2, "-")
    else some (field, date1, sep)

/-- The `form` selection at the end of `Date.__init__`. The `"T" not in
indate` test runs on the string in which every `T` has already been replaced
by `_`, so it always succeeds and form 2 is never chosen. An unmatched
separator combination leaves `form` unbound (`NameError`): `none`. -/
def pickForm (ds ts : String) (hasT : Bool) : Option Nat :=
  if ds = "-" ∧ ts = ":" then some (if hasT then 2 else 1)
  else if ds = "-" ∧ ts = "" then some 7
  else if ds = "" ∧ ts = ":" then some 6
  else if ds = "" ∧ ts = "" then some 9
  else none

/-- The raw pieces `Date.__init__` extracts before `int` conversion. -/
structure RawParse where
  yearS : List Char
  monthS : List Char
  dayS : List Char
  hourS : List Char
  minuteS : List Char
  secondS : List Char
  ph : Bool
  pm : Bool
  ps : Bool
  dsep : String
  tsep : String
  hasT : Bool

/-- The string-processing part of `Date.__init__`: normalize `T` to `_`,
split off the time part, parse it, then run the two date-part passes. -/
def parseFields (inp : List Char) : Option RawParse :=
  let indate := inp.map (fun c => if c = 'T' then '_' else c)
  let hasT := 'T' ∈ indate
  let dtOpt : Option (List Char × List Char × String) :=
    if '_' ∈ indate then
      if indate.count '_' = 1 then
        some (indate.takeWhile (· ≠ '_'), (indate.dropWhile (· ≠ '_')).drop 1, "")
      else none -- ValueError: unpacking `split("_")` into two names
    else some (indate, [], ":")
  match dtOpt with
  | none => none
  | some (date0, time, tsep0) =>
    let tOpt : Option (List Char × List Char × List Char × Bool × Bool × Bool × String) :=
      if time = [] then
        -- no time part: the "00" defaults and the all-true print flags stand
        some (['0', '0'], ['0', '0'], ['0', '0'], true, true, true, tsep0)
      else parseTime time
    match tOpt with
    | none => none
    | some (hs, mis, ss, ph, pm, ps, tsep) =>
      match dateIter date0 "" with
      | none => none
      | some (dayS, date1, sep1) =>
        match dateIter date1 sep1 with
        | none => none
        | some (monthS, date2, sep2) =>
          some ⟨date2, monthS, dayS, hs, mis, ss, ph, pm, ps, sep2, tsep, hasT⟩

/-- `Date(indate, calendar)`: `Option` models the `ValueError` / `IndexError`
/ `NameError` exits of the Python constructor. -/
def parseDate (cal : Calendar) (inp : List Char) : Option Date :=
  match parseFields inp with
  | none => none
  | some r =>
    match pickForm r.dsep r.tsep r.hasT with
    | none => none
    | some f =>
      match pyInt r.yearS, pyInt r.monthS, pyInt r.dayS,
            pyInt r.hourS, pyInt r.minuteS, pyInt r.secondS with
      | some y, some mo, some d, some h, some mi, some s =>
          some { year := y, month := mo, day := d, hour := h, minute := mi,
                 second := s, dateFormat := ⟨f, r.ph, r.pm, r.ps⟩, calendar := cal }
      | _, _, _, _, _, _ => none

/-! ### `Date.format` -/

/-- The `form` argument of `Date.format`: the string `"SELF"` or an integer. -/
inductive FormArg where
  | self
  | num (n : Nat)
  deriving DecidableEq

/-- Python list indexing, with negative wrap-around. -/
def pyIndex {α : Type} (l : List α) (i : Int) : Option α :=
  if 0 ≤ i then l.get? i.toNat
  else if -(l.length : Int) ≤ i then l.get? (l.length - (-i).toNat)
  else none

/-- Python `if len(s) < 2: s = "0" + s` (a single pad, not a loop). -/
def pad2 (s : String) : String := if s.length < 2 then "0" ++ s else s

/-- `Date.format(form, ph, pm, ps)`: `none` models `sys.exit(2)` (form 8 with
a short year), an out-of-range index into the separator tables, or a failing
month-name lookup. -/
def Date.format (d : Date) (form : FormArg) (ph pm ps : Bool) : Option String :=
  let f : Nat := match form with | .self => d.dateFormat.form | .num n => n
  let n0 := pyStrInt d.year
  let n1 := pyStrInt d.month
  let n2 := pyStrInt d.day
  let n3 := pyStrInt d.hour
  let n4 := pyStrInt d.minute
  let n5 := pyStrInt d.second
  let tweaked : Option (String × String × String) :=
    if f = 0 then
      -- `for _ in range(1, 4 - len)` runs `3 - len` times: one zero short
      let n0' :=
        if n0.length < 4 then String.mk (List.replicate (3 - n0.length) '0') ++ n0
        else n0
      some (n0', n1, n2)
    else if f = 5 then
      match pyInt n1.data with
      | none => none
      | some m =>
        match pyIndex monthnames (m - 1) with
        | none => none
        | some nm => some (n2, nm, n0)
    else if f = 8 then
      if n0.length < 4 then none else some (n0, n1, n2)
    else if f = 10 then some (n1, n2, n0)
    else some (n0, n1, n2)
  match tweaked with
  | none => none
  | some (m0, m1, m2) =>
    match datesepTable.get? f, timesepTable.get? f, dtsepTable.get? f with
    | some dsep, some tsep, some dts =>
      let q1 := dsep ++ pad2 m1
      let q2 := dsep ++ pad2 m2
      let q3 := dts ++ pad2 n3
      let q4 := tsep ++ pad2 n4
      let q5 := tsep ++ pad2 n5
      let r5 := if ¬ps ∧ ¬d.dateFormat.printseconds then "" else q5
      let r4 := if ¬pm ∧ ¬d.dateFormat.printminutes ∧ r5 = "" then "" else q4
      let r3 := if ¬ph ∧ ¬d.dateFormat.printhours ∧ r4 = "" then "" else q3
      some (pad2 m0 ++ q1 ++ q2 ++ r3 ++ r4 ++ r5)
    | _, _, _ => none

/-! ### `Date.from_list` and the arithmetic -/

/-- `Date.from_list([y, mo, d, h, mi, s])`: build the canonical string and
re-parse it — with the *default* calendar, since the source passes none. -/
def fromList (y mo d h mi s : Int) : Option Date :=
  let part (w : Nat) (i : Int) : String :=
    (if i < 0 then "-" else "") ++ zfill w (natStr i.natAbs)
  let indate :=
    part 4 y ++ "-" ++ part 2 mo ++ "-" ++ part 2 d ++ "_" ++
      part 2 h ++ ":" ++ part 2 mi ++ ":" ++ part 2 s
  parseDate defaultCal indate.data

/-- `int(a + b / q)`: Python true division followed by `int()` truncation
toward zero, computed exactly on rationals. -/
def pyDivAdd (a b q : Int) : Int := Int.tdiv (a * q + b) q

/-- The first normalization loop of `Date.makesense`
(`while ndate[2] > day_in_month(ndate[1], ndate[0])`). The source passes
`(month, year)` to a function whose parameters are `(year, month)`, and the
call here mirrors that swapped argument order. -/
def carryUp (cal : Calendar) : Nat → Int × Int × Int → Option (Int × Int × Int)
  | 0, _ => none
  | fuel + 1, (y, mo, d) =>
    if d > cal.day_in_month_int mo y then
      let d' := d - cal.day_in_month_int mo y
      let y' := pyDivAdd y mo 12
      let mo' := mo % 12 + 1
      carryUp cal fuel (y', mo', d')
    else some (y, mo, d)

/-- The second normalization loop (`while ndate[2] <= 0`), including the
`ndate[5] = 12` slip that writes the month wrap into the *seconds* field;
the `day_in_month` call again has its arguments swapped. -/
def carryDown (cal : Calendar) :
    Nat → Int × Int × Int × Int → Option (Int × Int × Int × Int)
  | 0, _ => none
  | fuel + 1, (y, mo, d, s) =>
    if d ≤ 0 then
      let mo1 := mo - 1
      let y1 := pyDivAdd y mo1 12
      let mo2 := mo1 % 12
      let s' := if mo2 = 0 then 12 else s
      let y2 := if mo2 = 0 then y1 - 1 else y1
      let d' := d + cal.day_in_month_int mo2 y2
      carryDown cal fuel (y2, mo2, d', s')
    else some (y, mo, d, s)

/-- `Date.makesense`: fold seconds/minutes/hours into days, run the two day
loops, then the final month/year wrap. -/
def Date.makesense (d : Date) : Option Date :=
  let mi1 := pyDivAdd d.minute d.second 60
  let s1 := d.second % 60
  let h1 := pyDivAdd d.hour mi1 60
  let mi2 := mi1 % 60
  let d1 := pyDivAdd d.day h1 24
  let h2 := h1 % 24
  match carryUp d.calendar 1000 (d.year, d.month, d1) with
  | none => none
  | some (y2, mo2, d2) =>
    match carryDown d.calendar 1000 (y2, mo2, d2, s1) with
    | none => none
    | some (y3, mo3, d3, s3) =>
      let y4 := pyDivAdd y3 mo3 12
      let mo4 := mo3 % 12
      let y5 := if mo4 = 0 then y4 - 1 else y4
      let mo5 := if mo4 = 0 then 12 else mo4
      some { d with year := y5, month := mo5, day := d3, hour := h2,
                    minute := mi2, second := s3 }

/-- `Date.add`: field-wise sum, `from_list`, then `makesense`. -/
def Date.add (d toAdd : Date) : Option Date :=
  match fromList (d.year + toAdd.year) (d.month + toAdd.month)
      (d.day + toAdd.day) (d.hour + toAdd.hour) (d.minute + toAdd.minute)
      (d.second + toAdd.second) with
  | none => none
  | some nd => nd.makesense

/-- `Date.sub` (point minus duration): field-wise difference, `from_list`,
then `makesense`. -/
def Date.sub (d toSub : Date) : Option Date :=
  match fromList (d.year - toSub.year) (d.month - toSub.month)
      (d.day - toSub.day) (d.hour - toSub.hour) (d.minute - toSub.minute)
      (d.second - toSub.second) with
  | none => none
  | some nd => nd.makesense

/-- The month-walking loops of `Date.__sub__` (`while d.month > 1`): return
the mutated month and the updated `diff[1]`, `diff[2]`. `sgn` is `-1` for the
`self` operand and `+1` for `other`. -/
def subWalk (cal : Calendar) (sgn : Int) :
    Nat → Int → Int → Int → Int → Option (Int × Int × Int)
  | 0, _, _, _, _ => none
  | fuel + 1, yr, mon, df1, df2 =>
    if mon > 1 then
      let mon' := mon - 1
      subWalk cal sgn fuel yr mon' (df1 + sgn)
        (df2 + sgn * cal.day_in_month_int yr mon')
    else some (mon, df1, df2)

/-- The year-walking loop of `Date.__sub__` (`while d1.year < d2.year`):
returns the mutated `d1.year` and the updated `diff[0..2]`. -/
def subYears (cal : Calendar) :
    Nat → Int → Int → Int → Int → Int → Option (Int × Int × Int × Int)
  | 0, _, _, _, _, _ => none
  | fuel + 1, y1, y2, df0, df1, df2 =>
    if y1 < y2 then
      subYears cal fuel (y1 + 1) y2 (df0 + 1) (df1 + 12) (df2 + cal.day_in_year y1)
    else some (y1, df0, df1, df2)

/-- `Date.__sub__` (point − point): returns the duration *and* the two
operands as left behind by the method (the loops write back into `self` and
`other`). -/
def Date.subPoint (self other : Date) : Option (Date × Date × Date) :=
  let diff3 := self.hour - other.hour
  let diff4 := self.minute - other.minute
  let diff5 := self.second - other.second
  match subWalk self.calendar (-1) 1000 self.year self.month
      (self.month - other.month) (self.day - other.day) with
  | none => none
  | some (selfMon, diff1a, diff2a) =>
    match subWalk self.calendar 1 1000 other.year other.month diff1a diff2a with
    | none => none
    | some (otherMon, diff1b, diff2b) =>
      let diff0a :=
        if diff1b < 0 then self.year - other.year - 1 else self.year - other.year
      match subYears self.calendar 1000 self.year other.year diff0a diff1b diff2b with
      | none => none
      | some (selfYear, diff0b, diff1c, diff2c) =>
        let diff3a := diff3 + diff2c * 24
        let diff3b := if diff3a < 0 then diff3a + 24 else diff3a
        let diff4a := diff4 + diff3b * 60
        let diff4b := if diff4a < 0 then diff4a + 60 else diff4a
        let diff5a := diff5 + diff4b * 60
        let diff5b := if diff5a < 0 then diff5a + 60 else diff5a
        match fromList diff0b diff1c diff2c diff3b diff4b diff5b with
        | none => none
        | some res =>
          some (res, { self with month := selfMon, year := selfYear },
                { other with month := otherMon })

/-! ### `EsmCalendar` -/

/-- Python `str.split()` with no argument: split on whitespace, dropping
empty parts. -/
def pySplitWs (l : List Char) : List (List Char) :=
  (l.splitOnP Char.isWhitespace).filter (· ≠ [])

/-- The attribute state of an `EsmCalendar` object. `previous_date`,
`next_date` and the derived run numbers do not exist until `update_dates`
has run: they start out as `none`. -/
structure EsmCalState where
  initial_date : Date
  final_date : Date
  delta_date : Date
  run_number : Int
  current_date : Date
  start_date : Date
  end_date : Date
  previous_date : Option Date
  previous_run_number : Option Int
  next_date : Option Date
  next_run_number : Option Int
  deriving DecidableEq

/-- `EsmCalendar.__init__(initial_date, final_date, delta_date)`:
`run_number = 1`, `current_date = start_date = initial_date`,
`end_date = start_date.add(delta_date)`. -/
def esmInit (initial finalD delta : Date) : Option EsmCalState :=
  (initial.add delta).map (fun endDate =>
    { initial_date := initial, final_date := finalD, delta_date := delta,
      run_number := 1, current_date := initial, start_date := initial,
      end_date := endDate, previous_date := none,
      previous_run_number := none, next_date := none,
      next_run_number := none })

/-- `EsmCalendar.update_dates`: recompute the previous/next dates and run
numbers from `current_date`, `delta_date` and `run_number`. -/
def updateDates (st : EsmCalState) : Option EsmCalState :=
  match st.current_date.sub st.delta_date, st.current_date.add st.delta_date with
  | some pd, some nd =>
    some { st with previous_date := some pd,
                   previous_run_number := some (st.run_number - 1),
                   next_date := some nd,
                   next_run_number := some (st.run_number + 1) }
  | _, _ => none

/-- `EsmCalendar.read_date_file`: `contents` is the checkpoint file's text,
or `none` when opening raises `IOError` — which the method catches, keeping
the pre-set defaults. Either way it finishes with `update_dates`. -/
def readDateFile (contents : Option String) (st : EsmCalState) :
    Option EsmCalState :=
  match contents with
  | none => updateDates st
  | some text =>
    match pySplitWs text.data with
    | [dateS, runS] =>
      match parseDate defaultCal dateS, pyInt runS with
      | some cd, some rn =>
          updateDates { st with current_date := cd, run_number := rn }
      | _, _ => none
    | _ => none

/-- `EsmCalendar.write_date_file`: the single line written to the checkpoint
file, `"<next_date formatted with SELF> <next_run_number>"`. -/
def writeDateFile (st : EsmCalState) : Option String :=
  match st.next_date, st.next_run_number with
  | some nd, some nrn =>
    match nd.format .self false false false with
    | some s => some (s ++ " " ++ pyStrInt nrn)
    | none => none
  | _, _ => none

/-! ### `CouplingEsmCalendar`: the setup rotation -/

/-- `deque.rotate()`: right rotation by one. -/
def pyRotate1 {α : Type} (l : List α) : List α :=
  match l.getLast? with
  | none => l
  | some x => x :: l.dropLast

/-- `deque.rotate(-2)`: left rotation by two (the identity on deques of
length at most two, as in Python). -/
def pyRotateNeg2 {α : Type} (l : List α) : List α := l.drop 2 ++ l.take 2

/-- The three setup views computed by `CouplingEsmCalendar.__init__` and the
final order of `self.setups` (the order later persisted to the chunk file). -/
structure CouplingRing (α : Type) where
  this_setup : α
  previous_setup : α
  next_setup : α
  ring : List α
  deriving DecidableEq

/-- The rotation bookkeeping of `CouplingEsmCalendar.__init__`: `this_setup`
is the deque head, one right rotation exposes `previous_setup`, a further
left rotation by two exposes `next_setup`, and the deque is left in that
final order. `none` models the `IndexError` on an empty deque. -/
def couplingRingInit {α : Type} (setups : List α) : Option (CouplingRing α) :=
  match setups.head? with
  | none => none
  | some s0 =>
    match (pyRotate1 setups).head? with
    | none => none
    | some prev =>
      match (pyRotateNeg2 (pyRotate1 setups)).head? with
      | none => none
      | some nxt => some ⟨s0, prev, nxt, pyRotateNeg2 (pyRotate1 setups)⟩

/-! ### Concrete values used by the theorems and witnesses -/

/-- A point `Date` bound to the Gregorian calendar, with the format
descriptor that parsing a full `YYYY-MM-DD_HH:MM:SS` string records. -/
def pdG (y mo d h mi s : Int) : Date :=
  ⟨y, mo, d, h, mi, s, ⟨1, true, true, true⟩, ⟨1⟩⟩

/-- A point `Date` bound to the `EqualMonth(30)` calendar. -/
def pdE (y mo d h mi s : Int) : Date :=
  ⟨y, mo, d, h, mi, s, ⟨1, true, true, true⟩, ⟨30⟩⟩

/-- The representative date `1850-01-01_00:00:00` of the round-trip claims
(all time fields explicit, no forced fields). -/
def d0 : Date := pdG 1850 1 1 0 0 0

/-- Format with an explicit form, re-parse, format again with the same form. -/
def rtripD (d : Date) (f : Nat) : Option String :=
  (d.format (.num f) false false false).bind (fun s =>
    (parseDate defaultCal s.data).bind (fun d2 =>
      d2.format (.num f) false false false))

/-- Parse a string and format the result with `form="SELF"` and no force
flags. -/
def selfRT (s : String) : Option String :=
  (parseDate defaultCal s.data).bind (fun d2 => d2.format .self false false false)

/-- Initial date `1850-01-01` of the concrete `EsmCalendar` witness. -/
def D_i : Date := pdG 1850 1 1 0 0 0

/-- Final date `1851-01-01` of the concrete `EsmCalendar` witness. -/
def D_f : Date := pdG 1851 1 1 0 0 0

/-- Delta date `0001-00-00` (one year) of the concrete `EsmCalendar` witness. -/
def D_dl : Date := pdG 1 0 0 0 0 0

/-- The freshly constructed `EsmCalendar` state of the concrete witness. -/
def S0 : EsmCalState := (esmInit D_i D_f D_dl).get (by decide)

/-- The concrete witness state after `update_dates`. -/
def S1 : EsmCalState := (updateDates S0).get (by decide)

/-- Equality of `Except` results is decidable when it is on both components. -/
instance {ε α : Type} [DecidableEq ε] [DecidableEq α] : DecidableEq (Except ε α) :=
  fun x y =>
    match x, y with
    | .ok a, .ok b =>
      if h : a = b then .isTrue (by rw [h])
      else .isFalse (by intro hc; cases hc; exact h rfl)
    | .error a, .error b =>
      if h : a = b then .isTrue (by rw [h])
      else .isFalse (by intro hc; cases hc; exact h rfl)
    | .ok _, .error _ => .isFalse (by intro hc; cases hc)
    | .error _, .ok _ => .isFalse (by intro hc; cases hc)

/-! ## Theorems -/

/-- C1: the one-second carry at the end of 1850 diverges from the
specification. `Date.add` on `Date(1850,12,31,23,59,59) + Date(0,0,0,0,0,1)`
yields `Date(1851,1,3,0,0,0)`, not `Date(1851,1,1,0,0,0)`: `makesense`
passes `(month, year)` to `day_in_month(year, month)`, so the December-1850
carry subtracts `day_in_month(12, 1850) = 29` days instead of 31. -/
theorem C1_add_carry_diverges :
    ((pdG 1850 12 31 23 59 59).add (pdG 0 0 0 0 0 1)).map sixFields
        = some (1851, 1, 3, 0, 0, 0) ∧
      ((pdG 1850 12 31 23 59 59).add (pdG 0 0 0 0 0 1)).map sixFields
        ≠ some (1851, 1, 1, 0, 0, 0) :=
  ⟨by decide, by decide⟩

/-- C3: `a + (b - a) == b` fails on the code. With `a = Date(1850,1,1)` and
`b = Date(1850,1,2)`, `b - a` holds the one-day span simultaneously in its
day, hour, minute and second fields, so `a.add(b - a)` counts it four times
and lands on `Date(1850,1,5,0,0,0)` instead of `b = Date(1850,1,2,0,0,0)`. -/
theorem C3_add_sub_asymmetric :
    (((pdG 1850 1 2 0 0 0).subPoint (pdG 1850 1 1 0 0 0)).bind
          (fun r => (pdG 1850 1 1 0 0 0).add r.1)).map sixFields
        = some (1850, 1, 5, 0, 0, 0) ∧
      sixFields (pdG 1850 1 2 0 0 0) = (1850, 1, 2, 0, 0, 0) ∧
      (((pdG 1850 1 2 0 0 0).subPoint (pdG 1850 1 1 0 0 0)).bind
          (fun r => (pdG 1850 1 1 0 0 0).add r.1)).map sixFields
        ≠ some (sixFields (pdG 1850 1 2 0 0 0)) :=
  ⟨by decide, by decide, by decide⟩

/-- C8: under `EqualMonth(30)`, `day_in_year` is 360 for every year, but the
one-day carry out of a 30-day month fails: `Date.add` goes through
`from_list`, which re-parses with the *default Gregorian* calendar, so
`Date(1,1,30) + 1 day` stays at `Date(1,1,31,0,0,0)` rather than wrapping to
`Date(1,2,1,0,0,0)`. -/
theorem C8_equal_month_arithmetic :
    (∀ y : Int, Calendar.day_in_year ⟨30⟩ y = 360) ∧
      ((pdE 1 1 30 0 0 0).add (pdE 0 0 1 0 0 0)).map sixFields
          = some (1, 1, 31, 0, 0, 0) ∧
      ((pdE 1 1 30 0 0 0).add (pdE 0 0 1 0 0 0)).map sixFields
          ≠ some (1, 2, 1, 0, 0, 0) :=
  ⟨fun y => by norm_num [Calendar.day_in_year], by decide, by decide⟩

/-- C9: `Date.__sub__` mutates its operands. Subtracting
`Date(2000,1,1,0,0,0)` from `Date(2000,2,1,0,0,0)` leaves the minuend's
month field at 1 (the `while d1.month > 1` walk writes back into `self`),
so the six fields of the operands are not preserved. -/
theorem C9_subPoint_mutates_operands :
    ((pdG 2000 2 1 0 0 0).subPoint (pdG 2000 1 1 0 0 0)).map
          (fun r => (r.2.1.month, r.2.2.month)) = some (1, 1) ∧
      (pdG 2000 2 1 0 0 0).month = 2 :=
  ⟨by decide, by decide⟩

/-- C2 counterexample: the round trip fails for canonical form 8. Formatting
the representative date in form 8 gives `"18500101000000"`; parsing that
string lumps the first ten digits into the year (month and day become 0), so
re-formatting in form 8 yields `"18500101000000000000"`. -/
theorem C2_roundtrip_fails_form8 :
    d0.format (.num 8) false false false = some "18500101000000" ∧
      rtripD d0 8 = some "18500101000000000000" ∧
      rtripD d0 8 ≠ d0.format (.num 8) false false false :=
  ⟨by decide, by decide, by decide⟩

/-- C2 amended: with no force flags, the explicit-form round trip
`format(parse(format(d0, f)), f) = format(d0, f)` holds exactly for the
forms `{0, 1, 2, 6, 7, 9}`; the strings of forms 3, 4, 5 and 10 do not parse
at all (`int()` fails on their space- or slash-separated pieces), form 8's
string parses but mis-assigns the fields, and the `SELF` round trip
reproduces the form 1, 6, 7, 9 strings but rewrites form 2's `"T"` joiner to
`"_"` (the parser normalizes `T` away before choosing the stored form). -/
theorem C2_amended_roundtrip :
    (rtripD d0 0 = some "18500101_000000" ∧
        d0.format (.num 0) false false false = some "18500101_000000") ∧
      (rtripD d0 1 = some "1850-01-01_00:00:00" ∧
        d0.format (.num 1) false false false = some "1850-01-01_00:00:00") ∧
      (rtripD d0 2 = some "1850-01-01T00:00:00" ∧
        d0.format (.num 2) false false false = some "1850-01-01T00:00:00") ∧
      (rtripD d0 6 = some "18500101_00:00:00" ∧
        d0.format (.num 6) false false false = some "18500101_00:00:00") ∧
      (rtripD d0 7 = some "1850-01-01_000000" ∧
        d0.format (.num 7) false false false = some "1850-01-01_000000") ∧
      (rtripD d0 9 = some "18500101_000000" ∧
        d0.format (.num 9) false false false = some "18500101_000000") ∧
      (d0.format (.num 3) false false false = some "1850-01-01 00:00:00" ∧
        parseDate defaultCal ("1850-01-01 00:00:00").data = none) ∧
      (d0.format (.num 4) false false false = some "1850 01 01 00 00 00" ∧
        parseDate defaultCal ("1850 01 01 00 00 00").data = none) ∧
      (d0.format (.num 5) false false false = some "01 Jan 1850 00:00:00" ∧
        parseDate defaultCal ("01 Jan 1850 00:00:00").data = none) ∧
      (d0.format (.num 10) false false false = some "01/01/1850 00:00:00" ∧
        parseDate defaultCal ("01/01/1850 00:00:00").data = none) ∧
      rtripD d0 8 ≠ d0.format (.num 8) false false false ∧
      (selfRT "1850-01-01_00:00:00" = some "1850-01-01_00:00:00" ∧
        selfRT "18500101_00:00:00" = some "18500101_00:00:00" ∧
        selfRT "1850-01-01_000000" = some "1850-01-01_000000" ∧
        selfRT "18500101_000000" = some "18500101_000000" ∧
        selfRT "1850-01-01T00:00:00" = some "1850-01-01_00:00:00") :=
  ⟨⟨by decide, by decide⟩, ⟨by decide, by decide⟩, ⟨by decide, by decide⟩,
    ⟨by decide, by decide⟩, ⟨by decide, by decide⟩, ⟨by decide, by decide⟩,
    ⟨by decide, by decide⟩, ⟨by decide, by decide⟩, ⟨by decide, by decide⟩,
    ⟨by decide, by decide⟩, by decide,
    by decide, by decide, by decide, by decide, by decide⟩

/-- C7 counterexample: an out-of-range integer month does not raise.
`day_in_month(2001, 0)` on the Gregorian calendar falls through both month
lists and silently returns the February count 28. -/
theorem C7_out_of_range_month_silent :
    Calendar.day_in_month ⟨1⟩ 2001 (.int 0) = .ok 28 := by
  decide

/-- C7 amended: `day_in_month` accepts an integer month or a 3-letter
case-insensitive month name; an unknown *name* is an error, but an
out-of-range *integer* month does not raise: under the Gregorian calendar a
month outside both month lists silently gets the February count
`28 + isleapyear(year)`, and under `EqualMonth(n)` every integer month
returns `n`. -/
theorem C7_amended_month_lookup (y m : Int)
    (h31 : m ∉ ([1, 3, 5, 7, 8, 10, 12] : List Int))
    (h30 : m ∉ ([4, 6, 9, 11] : List Int)) :
    Calendar.day_in_month ⟨1⟩ y (.int m)
        = .ok (28 + (if Calendar.isleapyear ⟨1⟩ y then 1 else 0)) ∧
      Calendar.day_in_month ⟨1⟩ y (.str "jAn") = .ok 31 ∧
      Calendar.day_in_month ⟨1⟩ y (.str "FEB")
        = .ok (28 + (if Calendar.isleapyear ⟨1⟩ y then 1 else 0)) ∧
      Calendar.day_in_month ⟨1⟩ y (.str "Foo")
        = .error "ValueError: month name not in monthnames" ∧
      Calendar.day_in_month ⟨30⟩ y (.int m) = .ok 30 := by
  refine ⟨?_, rfl, rfl, rfl, rfl⟩
  simp [Calendar.day_in_month, Calendar.day_in_month_int, h31, h30]

/-- Witness for the amended C7 at `year = 2001`, `month = 0`. -/
theorem C7_amended_month_lookup_witness :
    Calendar.day_in_month ⟨1⟩ 2001 (.int 0)
        = .ok (28 + (if Calendar.isleapyear ⟨1⟩ 2001 then 1 else 0)) ∧
      Calendar.day_in_month ⟨1⟩ 2001 (.str "jAn") = .ok 31 ∧
      Calendar.day_in_month ⟨1⟩ 2001 (.str "FEB")
        = .ok (28 + (if Calendar.isleapyear ⟨1⟩ 2001 then 1 else 0)) ∧
      Calendar.day_in_month ⟨1⟩ 2001 (.str "Foo")
        = .error "ValueError: month name not in monthnames" ∧
      Calendar.day_in_month ⟨30⟩ 2001 (.int 0) = .ok 30 :=
  C7_amended_month_lookup 2001 0 (by decide) (by decide)

/-- Helper for C10: the form selector can only answer 1, 2, 6, 7 or 9. -/
theorem pickForm_mem (ds ts : String) (t : Bool) (f : Nat)
    (h : pickForm ds ts t = some f) : f ∈ ([1, 2, 6, 7, 9] : List Nat) := by
  unfold pickForm at h
  split_ifs at h <;> cases t <;> simp_all

/-- C10: every `Date` built by the string parser records a format form in
`{1, 2, 6, 7, 9}`; forms 0, 3, 4, 5, 8 and 10 are never recorded, so
`format(form=SELF)` can only reproduce those five layouts. -/
theorem C10_parser_form_invariant (cal : Calendar) (l : List Char) (d : Date)
    (h : parseDate cal l = some d) :
    d.dateFormat.form ∈ ([1, 2, 6, 7, 9] : List Nat) := by
  unfold parseDate at h
  split at h
  · exact Option.noConfusion h
  · rename_i r heq
    split at h
    · exact Option.noConfusion h
    · rename_i f hf
      split at h
      · injection h with h2
        subst h2
        exact pickForm_mem _ _ _ _ hf
      all_goals exact Option.noConfusion h

/-- Witness for C10: parsing `"1850-01-01"` records form 1. -/
theorem C10_parser_form_invariant_witness :
    (⟨1850, 1, 1, 0, 0, 0, ⟨1, true, true, true⟩, ⟨1⟩⟩ : Date).dateFormat.form
      ∈ ([1, 2, 6, 7, 9] : List Nat) :=
  C10_parser_form_invariant ⟨1⟩ ("1850-01-01".data)
    ⟨1850, 1, 1, 0, 0, 0, ⟨1, true, true, true⟩, ⟨1⟩⟩ (by decide)

/-- C4: reading a missing checkpoint file is not an error and leaves the
construction-time defaults standing: `run_number = 1` and `current_date =
initial_date`. The `IOError` is caught and only `update_dates` runs, which
touches neither field. -/
theorem readDateFile_none (st : EsmCalState) :
    readDateFile none st = updateDates st := rfl

theorem C4_missing_checkpoint_defaults (i f dl : Date) (st st' : EsmCalState)
    (hinit : esmInit i f dl = some st)
    (hread : readDateFile none st = some st') :
    st'.run_number = 1 ∧ st'.current_date = i := by
  unfold esmInit at hinit
  rcases Option.map_eq_some'.mp hinit with ⟨ed, hadd, hst⟩
  subst hst
  rw [readDateFile_none] at hread
  unfold updateDates at hread
  split at hread
  · injection hread with h3
    subst h3
    exact ⟨rfl, rfl⟩
  · exact Option.noConfusion hread

/-- Witness for C4 on the concrete 1850→1851 yearly configuration. -/
theorem C4_missing_checkpoint_defaults_witness :
    S1.run_number = 1 ∧ S1.current_date = D_i :=
  C4_missing_checkpoint_defaults D_i D_f D_dl S0 S1 (by decide) (by decide)

/-- C5: after `update_dates`, `next_date = current_date.add(delta_date)`,
`previous_date = current_date.sub(delta_date)`, the run numbers are
`run_number ± 1`, and `write_date_file` persists exactly the line
`"<next_date formatted> <next_run_number>"`. -/
theorem C5_update_dates_and_write (st st' : EsmCalState)
    (h : updateDates st = some st') :
    st'.previous_date = st.current_date.sub st.delta_date ∧
      st'.next_date = st.current_date.add st.delta_date ∧
      st'.previous_run_number = some (st.run_number - 1) ∧
      st'.next_run_number = some (st.run_number + 1) ∧
      writeDateFile st' =
        (st.current_date.add st.delta_date).bind (fun nd =>
          (nd.format .self false false false).map
            (fun s => s ++ " " ++ pyStrInt (st.run_number + 1))) := by
  unfold updateDates at h
  split at h
  · rename_i pd nd hsub hadd
    injection h with h2
    subst h2
    refine ⟨by rw [hsub], by rw [hadd], rfl, rfl, ?_⟩
    rw [hadd]
    unfold writeDateFile
    cases hf : nd.format .self false false false <;> simp [hf]
  · cases h

/-- Witness for C5 on the concrete 1850→1851 yearly configuration. -/
theorem C5_update_dates_and_write_witness :
    S1.previous_date = S0.current_date.sub S0.delta_date ∧
      S1.next_date = S0.current_date.add S0.delta_date ∧
      S1.previous_run_number = some (S0.run_number - 1) ∧
      S1.next_run_number = some (S0.run_number + 1) ∧
      writeDateFile S1 =
        (S0.current_date.add S0.delta_date).bind (fun nd =>
          (nd.format .self false false false).map
            (fun s => s ++ " " ++ pyStrInt (S0.run_number + 1))) :=
  C5_update_dates_and_write S0 S1 (by decide)

/-- One right rotation of a deque with at least two elements. -/
theorem pyRotate1_cons {α : Type} (a b : α) (u : List α) :
    pyRotate1 (a :: b :: u) =
      (b :: u).getLast (by simp) :: a :: (b :: u).dropLast := by
  unfold pyRotate1
  rw [List.getLast?_cons_cons, List.getLast?_eq_getLast_of_ne_nil (by simp)]
  rfl

/-- The deque order after `rotate()` then `rotate(-2)`: the original ring
rotated left by one position. -/
theorem pyRotate_ring_shape {α : Type} (a b : α) (u : List α) :
    pyRotateNeg2 (pyRotate1 (a :: b :: u)) = b :: (u ++ [a]) := by
  rw [pyRotate1_cons]
  show (b :: u).dropLast ++ [(b :: u).getLast (by simp), a] = b :: (u ++ [a])
  rw [show [(b :: u).getLast (by simp), a] =
        [(b :: u).getLast (by simp)] ++ [a] from rfl,
    ← List.append_assoc, List.dropLast_append_getLast]
  rfl

/-- C6: seeding the coupling ring with at least two setups gives
`this_setup = s0`, `previous_setup` = the last setup, `next_setup = s1`,
and leaves the deque equal to the input rotated by exactly one position
(the cyclic order is untouched), with `next_setup` at its head — the order
later persisted for the next chunk. -/
theorem C6_coupling_ring_rotation {α : Type} (s0 s1 : α) (rest : List α) :
    couplingRingInit (s0 :: s1 :: rest) =
        some ⟨s0, (s1 :: rest).getLast (by simp), s1,
          (s0 :: s1 :: rest).rotate 1⟩ ∧
      ((s0 :: s1 :: rest).rotate 1).head? = some s1 := by
  have hrot : (s0 :: s1 :: rest).rotate 1 = s1 :: (rest ++ [s0]) := by
    rw [List.rotate_cons_succ, List.rotate_zero]
    rfl
  constructor
  · unfold couplingRingInit
    rw [pyRotate_ring_shape, pyRotate1_cons, hrot]
    rfl
  · rw [hrot]
    rfl

end PyEsm
